import Mathlib

/-!
Verification of the scenario-derivation core of the Business-Analytics-Portfolio
repository: the college-mess profitability model (`financial_model.py`) and the
campus resource-utilization model (`p-2/resource_utilization_model.py`).

Embedding conventions:
* Python `int` is embedded as `ℤ`, Python `float` as `ℚ` (the sources only ever
  perform field arithmetic on their inputs; floats are modelled as exact
  rationals).
* Python's `int(x)` conversion truncates toward zero; it is embedded as `pyInt`.
* Python's `round(x, 2)` is embedded as `round2`.
* The fallible list lookup `HOURS[idx]` is embedded with `Option`: `none`
  models the `IndexError`.
-/

/-- Python `int(q)` for a float `q`: truncation toward zero. -/
def pyInt (q : ℚ) : ℤ := if 0 ≤ q then ⌊q⌋ else ⌈q⌉

/-- Python `round(q, 2)`: round to two decimal places. -/
def round2 (q : ℚ) : ℚ := (round (q * 100) : ℚ) / 100

namespace Mess

/-- The `MessAssumptions` dataclass of `financial_model.py` (lines 41-62).
Python `int` fields are `ℤ`, `float` fields are `ℚ`. -/
structure MessAssumptions where
  total_students : ℤ
  monthly_fee_per_student : ℚ
  days_in_month : ℤ
  daily_food_cost_per_student : ℚ
  food_wastage_pct : ℚ
  lpg_fuel_monthly : ℚ
  water_monthly : ℚ
  packaging_disposables_monthly : ℚ
  staff_salaries : ℚ
  electricity : ℚ
  maintenance : ℚ
  rent : ℚ
  insurance_misc : ℚ
deriving DecidableEq

/-- The dataclass defaults (lines 44-62): the base case used by `main`. -/
def messDefault : MessAssumptions :=
  { total_students := 650
    monthly_fee_per_student := 4500
    days_in_month := 30
    daily_food_cost_per_student := 90
    food_wastage_pct := 12
    lpg_fuel_monthly := 55000
    water_monthly := 18000
    packaging_disposables_monthly := 12000
    staff_salaries := 220000
    electricity := 45000
    maintenance := 20000
    rent := 60000
    insurance_misc := 15000 }

/-- `MessAssumptions.monthly_raw_food_cost` (lines 65-67). -/
def MessAssumptions.monthly_raw_food_cost (a : MessAssumptions) : ℚ :=
  (a.total_students : ℚ) * a.daily_food_cost_per_student * (a.days_in_month : ℚ)

/-- `MessAssumptions.monthly_wastage_cost` (lines 69-71). -/
def MessAssumptions.monthly_wastage_cost (a : MessAssumptions) : ℚ :=
  a.monthly_raw_food_cost * (a.food_wastage_pct / 100)

/-- `MessAssumptions.total_variable_costs` (lines 73-79). -/
def MessAssumptions.total_variable_costs (a : MessAssumptions) : ℚ :=
  a.monthly_raw_food_cost + a.monthly_wastage_cost + a.lpg_fuel_monthly
    + a.water_monthly + a.packaging_disposables_monthly

/-- `MessAssumptions.total_fixed_costs` (lines 81-87). -/
def MessAssumptions.total_fixed_costs (a : MessAssumptions) : ℚ :=
  a.staff_salaries + a.electricity + a.maintenance + a.rent + a.insurance_misc

/-- `MessAssumptions.total_revenue` (lines 89-91). -/
def MessAssumptions.total_revenue (a : MessAssumptions) : ℚ :=
  (a.total_students : ℚ) * a.monthly_fee_per_student

/-- `MessAssumptions.total_cost` (lines 93-95). -/
def MessAssumptions.total_cost (a : MessAssumptions) : ℚ :=
  a.total_variable_costs + a.total_fixed_costs

/-- `MessAssumptions.profit` (lines 97-99). -/
def MessAssumptions.profit (a : MessAssumptions) : ℚ :=
  a.total_revenue - a.total_cost

/-- `MessAssumptions.profit_margin` (lines 101-103):
`(profit / revenue) * 100 if self.total_revenue else 0`.  Python truthiness of
a float is `≠ 0`. -/
def MessAssumptions.profit_margin (a : MessAssumptions) : ℚ :=
  if a.total_revenue ≠ 0 then a.profit / a.total_revenue * 100 else 0

/-- The scenario dict built by `_snap` in `run_optimizations`
(lines 114-123); `Profit Margin %` is rounded to two decimals. -/
structure MessSnap where
  scenario : String
  revenue : ℚ
  variable_costs : ℚ
  fixed_costs : ℚ
  total_cost : ℚ
  profit : ℚ
  profit_margin_pct : ℚ
deriving DecidableEq

/-- `_snap(name, m)` (lines 114-123). -/
def messSnap (name : String) (m : MessAssumptions) : MessSnap :=
  { scenario := name
    revenue := m.total_revenue
    variable_costs := m.total_variable_costs
    fixed_costs := m.total_fixed_costs
    total_cost := m.total_cost
    profit := m.profit
    profit_margin_pct := round2 m.profit_margin }

/-- One wastage-reduction variant (lines 129-143).  The construction site
passes every field of `base` explicitly EXCEPT `days_in_month`, which is
therefore the dataclass default `30`, and overrides `food_wastage_pct`. -/
def wastageVariant (base : MessAssumptions) (reduction : ℚ) : MessAssumptions :=
  { total_students := base.total_students
    monthly_fee_per_student := base.monthly_fee_per_student
    days_in_month := 30
    daily_food_cost_per_student := base.daily_food_cost_per_student
    food_wastage_pct := base.food_wastage_pct - reduction
    lpg_fuel_monthly := base.lpg_fuel_monthly
    water_monthly := base.water_monthly
    packaging_disposables_monthly := base.packaging_disposables_monthly
    staff_salaries := base.staff_salaries
    electricity := base.electricity
    maintenance := base.maintenance
    rent := base.rent
    insurance_misc := base.insurance_misc }

/-- One operational-efficiency variant (lines 147-162): `factor = 1 - eff/100`
scales lpg, water, electricity and maintenance; `days_in_month` is again the
default `30`. -/
def efficiencyVariant (base : MessAssumptions) (eff : ℚ) : MessAssumptions :=
  { total_students := base.total_students
    monthly_fee_per_student := base.monthly_fee_per_student
    days_in_month := 30
    daily_food_cost_per_student := base.daily_food_cost_per_student
    food_wastage_pct := base.food_wastage_pct
    lpg_fuel_monthly := base.lpg_fuel_monthly * (1 - eff / 100)
    water_monthly := base.water_monthly * (1 - eff / 100)
    packaging_disposables_monthly := base.packaging_disposables_monthly
    staff_salaries := base.staff_salaries
    electricity := base.electricity * (1 - eff / 100)
    maintenance := base.maintenance * (1 - eff / 100)
    rent := base.rent
    insurance_misc := base.insurance_misc }

/-- One fee-increase variant (lines 166-180); `days_in_month` is again the
default `30`. -/
def feeVariant (base : MessAssumptions) (bump : ℚ) : MessAssumptions :=
  { total_students := base.total_students
    monthly_fee_per_student := base.monthly_fee_per_student + bump
    days_in_month := 30
    daily_food_cost_per_student := base.daily_food_cost_per_student
    food_wastage_pct := base.food_wastage_pct
    lpg_fuel_monthly := base.lpg_fuel_monthly
    water_monthly := base.water_monthly
    packaging_disposables_monthly := base.packaging_disposables_monthly
    staff_salaries := base.staff_salaries
    electricity := base.electricity
    maintenance := base.maintenance
    rent := base.rent
    insurance_misc := base.insurance_misc }

/-- The combined variant (lines 184-197); `days_in_month` is again the
default `30`. -/
def combinedVariant (base : MessAssumptions) : MessAssumptions :=
  { total_students := base.total_students
    monthly_fee_per_student := base.monthly_fee_per_student + 200
    days_in_month := 30
    daily_food_cost_per_student := base.daily_food_cost_per_student
    food_wastage_pct := base.food_wastage_pct - 10
    lpg_fuel_monthly := base.lpg_fuel_monthly * (95 / 100)
    water_monthly := base.water_monthly * (95 / 100)
    packaging_disposables_monthly := base.packaging_disposables_monthly
    staff_salaries := base.staff_salaries
    electricity := base.electricity * (95 / 100)
    maintenance := base.maintenance * (95 / 100)
    rent := base.rent
    insurance_misc := base.insurance_misc }

/-- The ten variant assumption sets constructed by `run_optimizations`
(lines 129-198), in source order. -/
def messVariants (base : MessAssumptions) : List MessAssumptions :=
  [wastageVariant base 5, wastageVariant base 10, wastageVariant base 15,
   efficiencyVariant base 2, efficiencyVariant base 5, efficiencyVariant base 8,
   feeVariant base 100, feeVariant base 200, feeVariant base 300,
   combinedVariant base]

/-- The scenario names appended in `run_optimizations`, in source order. -/
def messVariantNames : List String :=
  ["Wastage Reduced by 5pp", "Wastage Reduced by 10pp", "Wastage Reduced by 15pp",
   "Operational Efficiency +2%", "Operational Efficiency +5%", "Operational Efficiency +8%",
   "Fee Increase ₹100/mo", "Fee Increase ₹200/mo", "Fee Increase ₹300/mo",
   "Combined Optimized Scenario"]

/-- `run_optimizations(base)` (lines 110-200): the base-case snapshot followed
by a snapshot of each variant. -/
def run_optimizations (base : MessAssumptions) : List MessSnap :=
  messSnap "Base Case (Current)" base ::
    List.zipWith messSnap messVariantNames (messVariants base)

end Mess

namespace Campus

/-- `HOURS` (line 42 of `resource_utilization_model.py`):
the 18 hour labels `"6:00"` to `"23:00"`. -/
def HOURS : List String := (List.range' 6 18).map (fun h => toString h ++ ":00")

/-- The `Facility` dataclass (lines 44-50). -/
structure Facility where
  name : String
  max_capacity : ℤ
  hourly_usage : List ℤ
  operating_cost_per_hour : ℚ
deriving DecidableEq

/-- Python `max(l)` on a list of ints, returning `0` on the empty list (the
sources always guard the empty case, via `if self.hourly_usage else 0` or an
emptiness test). -/
def listMax : List ℤ → ℤ
  | [] => 0
  | x :: xs => xs.foldl max x

/-- `Facility.total_operating_hours` (lines 53-55). -/
def Facility.total_operating_hours (f : Facility) : ℕ := f.hourly_usage.length

/-- `Facility.total_person_hours` (lines 57-59). -/
def Facility.total_person_hours (f : Facility) : ℤ := f.hourly_usage.sum

/-- `Facility.max_possible_person_hours` (lines 61-63). -/
def Facility.max_possible_person_hours (f : Facility) : ℤ :=
  f.max_capacity * (f.total_operating_hours : ℤ)

/-- `Facility.avg_utilization_pct` (lines 65-69). -/
def Facility.avg_utilization_pct (f : Facility) : ℚ :=
  if f.max_possible_person_hours = 0 then 0
  else ((f.total_person_hours : ℚ) / (f.max_possible_person_hours : ℚ)) * 100

/-- `Facility.peak_usage` (lines 71-73): `max(hourly_usage) if hourly_usage else 0`. -/
def Facility.peak_usage (f : Facility) : ℤ := listMax f.hourly_usage

/-- `Facility.peak_utilization_pct` (lines 75-77). -/
def Facility.peak_utilization_pct (f : Facility) : ℚ :=
  if f.max_capacity ≠ 0 then ((f.peak_usage : ℚ) / (f.max_capacity : ℚ)) * 100 else 0

/-- `Facility.peak_hour` (lines 79-84): `"N/A"` for an empty usage list,
otherwise the `HOURS` entry at the first index of the maximum usage.  The
lookup `HOURS[idx]` can raise `IndexError`; that failure is modelled by
`none`. -/
def Facility.peak_hour (f : Facility) : Option String :=
  if f.hourly_usage = [] then some "N/A"
  else HOURS.get? (f.hourly_usage.indexOf (listMax f.hourly_usage))

/-- `Facility.idle_hours` (lines 86-90): slots with usage below 20% of
capacity. -/
def Facility.idle_hours (f : Facility) : ℕ :=
  f.hourly_usage.countP (fun (u : ℤ) => decide ((u : ℚ) < (f.max_capacity : ℚ) * 0.20))

/-- `Facility.overcrowded_hours` (lines 92-96): slots with usage above 85% of
capacity. -/
def Facility.overcrowded_hours (f : Facility) : ℕ :=
  f.hourly_usage.countP (fun (u : ℤ) => decide ((f.max_capacity : ℚ) * 0.85 < (u : ℚ)))

/-- `Facility.idle_capacity_pct` (lines 98-101); guards on
`max_possible_person_hours` being nonzero, not on `total_person_hours`. -/
def Facility.idle_capacity_pct (f : Facility) : ℚ :=
  if f.max_possible_person_hours ≠ 0 then
    ((f.max_possible_person_hours - f.total_person_hours : ℤ) : ℚ)
      / (f.max_possible_person_hours : ℚ) * 100
  else 0

/-- `Facility.daily_operating_cost` (lines 103-105). -/
def Facility.daily_operating_cost (f : Facility) : ℚ :=
  f.operating_cost_per_hour * (f.total_operating_hours : ℚ)

/-- `Facility.cost_per_person_hour` (lines 107-109). -/
def Facility.cost_per_person_hour (f : Facility) : ℚ :=
  if f.total_person_hours ≠ 0 then
    f.daily_operating_cost / (f.total_person_hours : ℚ)
  else 0

/-- `build_dataset()` (lines 112-157). -/
def build_dataset : List Facility :=
  [{ name := "Gymnasium", max_capacity := 60,
     hourly_usage := [8, 25, 35, 15, 10, 12, 18, 22, 30, 45, 50, 38, 28, 15, 10, 8, 20, 35],
     operating_cost_per_hour := 450 },
   { name := "Central Library", max_capacity := 200,
     hourly_usage := [15, 30, 60, 90, 120, 140, 150, 165, 170, 180, 175, 160, 130, 100, 80, 60, 45, 25],
     operating_cost_per_hour := 800 },
   { name := "Computer Lab A", max_capacity := 80,
     hourly_usage := [5, 10, 55, 70, 75, 72, 68, 65, 60, 55, 50, 45, 35, 25, 15, 10, 8, 5],
     operating_cost_per_hour := 600 },
   { name := "Computer Lab B", max_capacity := 80,
     hourly_usage := [0, 5, 40, 60, 65, 70, 72, 68, 55, 40, 30, 25, 20, 15, 10, 5, 3, 0],
     operating_cost_per_hour := 600 },
   { name := "Study Room Block", max_capacity := 120,
     hourly_usage := [10, 15, 25, 40, 50, 55, 60, 65, 70, 80, 90, 100, 105, 95, 85, 70, 55, 40],
     operating_cost_per_hour := 350 },
   { name := "Auditorium", max_capacity := 500,
     hourly_usage := [0, 0, 50, 100, 350, 200, 80, 50, 30, 20, 15, 10, 50, 100, 300, 150, 50, 0],
     operating_cost_per_hour := 1200 },
   { name := "Sports Complex", max_capacity := 150,
     hourly_usage := [20, 40, 15, 10, 8, 12, 15, 20, 25, 35, 50, 65, 80, 100, 120, 130, 110, 70],
     operating_cost_per_hour := 500 }]

/-- The clamping loop of `_redistribute_usage` (lines 167-173): every slot
above `cap` is clamped down to `cap`. -/
def clampList (cap : ℤ) (l : List ℤ) : List ℤ :=
  l.map (fun u => if cap < u then cap else u)

/-- The excess accumulated by the clamping loop of `_redistribute_usage`
(lines 169-173): the total amount clamped off. -/
def clampedExcess (cap : ℤ) (l : List ℤ) : ℤ :=
  (l.map (fun u => if cap < u then u - cap else 0)).sum

/-- `low_indices` (line 176): the slot indices sorted by current (clamped)
usage, ascending; Python's `sorted` is stable, as is `List.mergeSort`. -/
def lowIndices (l : List ℤ) : List ℕ :=
  (List.range l.length).mergeSort (fun i j => decide (l.getD i 0 ≤ l.getD j 0))

/-- The distribution loop of `_redistribute_usage` (lines 177-183), with the
running excess threaded through the state: each visited index absorbs
`min excess (cap - current)`, and the loop stops once the excess is `≤ 0`. -/
def spread (cap : ℤ) : List ℕ → List ℤ × ℤ → List ℤ × ℤ
  | [], st => st
  | i :: rest, (l, e) =>
    if e ≤ 0 then (l, e)
    else
      spread cap rest
        (l.set i (l.getD i 0 + min e (cap - l.getD i 0)), e - min e (cap - l.getD i 0))

/-- `_redistribute_usage` (lines 164-184), returning both the final usage list
and the final (undistributed) excess. -/
def redistributePair (f : Facility) (target_pct : ℚ) : List ℤ × ℤ :=
  let cap := pyInt ((f.max_capacity : ℚ) * target_pct)
  let clamped := clampList cap f.hourly_usage
  spread cap (lowIndices clamped) (clamped, clampedExcess cap f.hourly_usage)

/-- `_redistribute_usage` (lines 164-184): the returned usage list. -/
def redistribute_usage (f : Facility) (target_pct : ℚ) : List ℤ :=
  (redistributePair f target_pct).1

/-- The scenario dict built in `run_optimizations` (lines 200-208 and
analogous blocks); the two rates are rounded to two decimals. -/
structure FacSnap where
  scenario : String
  avg_utilization_pct : ℚ
  total_person_hours : ℤ
  idle_hours_total : ℕ
  overcrowded_hours : ℕ
  daily_op_cost : ℚ
  cost_per_person_hr : ℚ
deriving DecidableEq

/-- The aggregate-metrics snapshot computed for each scenario in
`run_optimizations` (the block repeated at lines 191-207, 218-231, 246-259,
272-285, 298-311, 325-338): per-facility numerators and denominators are
summed before dividing. -/
def aggSnap (name : String) (fs : List Facility) : FacSnap :=
  { scenario := name
    avg_utilization_pct :=
      round2 (if (fs.map Facility.max_possible_person_hours).sum ≠ 0 then
        ((fs.map Facility.total_person_hours).sum : ℚ)
          / ((fs.map Facility.max_possible_person_hours).sum : ℚ) * 100
      else 0)
    total_person_hours := (fs.map Facility.total_person_hours).sum
    idle_hours_total := (fs.map Facility.idle_hours).sum
    overcrowded_hours := (fs.map Facility.overcrowded_hours).sum
    daily_op_cost := (fs.map Facility.daily_operating_cost).sum
    cost_per_person_hr :=
      round2 (if (fs.map Facility.total_person_hours).sum ≠ 0 then
        (fs.map Facility.daily_operating_cost).sum
          / ((fs.map Facility.total_person_hours).sum : ℚ)
      else 0) }

/-- The per-facility rebuild in the redistribution scenarios (lines 212-217). -/
def redistributedFacilities (fs : List Facility) (cap_pct : ℚ) : List Facility :=
  fs.map (fun f =>
    { name := f.name, max_capacity := f.max_capacity,
      hourly_usage := redistribute_usage f cap_pct,
      operating_cost_per_hour := f.operating_cost_per_hour })

/-- The per-facility rebuild in the extended-hours scenario (lines 236-245):
facilities above 50% average utilization get two extra slots, each
`int(peak_usage * 0.3)`; others are rebuilt with identical fields. -/
def extendFacility (f : Facility) : Facility :=
  if f.avg_utilization_pct > 50 then
    { name := f.name, max_capacity := f.max_capacity,
      hourly_usage := f.hourly_usage ++ List.replicate 2 (pyInt ((f.peak_usage : ℚ) * 0.3)),
      operating_cost_per_hour := f.operating_cost_per_hour }
  else
    { name := f.name, max_capacity := f.max_capacity,
      hourly_usage := f.hourly_usage,
      operating_cost_per_hour := f.operating_cost_per_hour }

/-- The per-facility rebuild in the close-idle-slots scenario (lines 264-271):
drop slots below 15% of capacity, keeping the original list if all slots
would be dropped. -/
def trimFacility (f : Facility) : Facility :=
  { name := f.name, max_capacity := f.max_capacity,
    hourly_usage :=
      if f.hourly_usage.filter (fun u => decide ((f.max_capacity : ℚ) * 0.15 ≤ (u : ℚ))) = []
      then f.hourly_usage
      else f.hourly_usage.filter (fun u => decide ((f.max_capacity : ℚ) * 0.15 ≤ (u : ℚ))),
    operating_cost_per_hour := f.operating_cost_per_hour }

/-- The per-facility rebuild in the capacity-right-sizing scenario
(lines 289-297). -/
def resizeFacility (f : Facility) : Facility :=
  { name := f.name,
    max_capacity :=
      if f.avg_utilization_pct < 40 then pyInt ((f.peak_usage : ℚ) * 1.2)
      else f.max_capacity,
    hourly_usage := f.hourly_usage,
    operating_cost_per_hour := f.operating_cost_per_hour }

/-- The per-facility rebuild in the combined scenario (lines 315-324):
redistribute at 70% cap, floor slots below the 15%-of-capacity threshold up
to `int(threshold)`, right-size capacity under 40% utilization, and scale the
hourly cost by 0.95. -/
def combineFacility (f : Facility) : Facility :=
  { name := f.name,
    max_capacity :=
      if 40 ≤ f.avg_utilization_pct then f.max_capacity
      else pyInt ((f.peak_usage : ℚ) * 1.2),
    hourly_usage :=
      (redistribute_usage f 0.70).map (fun (u : ℤ) =>
        if (f.max_capacity : ℚ) * 0.15 ≤ (u : ℚ) then u
        else pyInt ((f.max_capacity : ℚ) * 0.15)),
    operating_cost_per_hour := f.operating_cost_per_hour * 0.95 }

/-- `run_optimizations(facilities)` (lines 187-341): the seven aggregate
scenario snapshots in source order. -/
def run_optimizations (fs : List Facility) : List FacSnap :=
  [aggSnap "Base Case (Current)" fs,
   aggSnap "Redistribute (cap 70%)" (redistributedFacilities fs 0.70),
   aggSnap "Redistribute (cap 60%)" (redistributedFacilities fs 0.60),
   aggSnap "Extended Hours (High-Demand)" (fs.map extendFacility),
   aggSnap "Close Idle Slots (<15%)" (fs.map trimFacility),
   aggSnap "Capacity Right-Sizing" (fs.map resizeFacility),
   aggSnap "Combined Optimized" (fs.map combineFacility)]

end Campus

namespace Campus

lemma sum_clampList (cap : ℤ) (l : List ℤ) :
    (clampList cap l).sum = l.sum - clampedExcess cap l := by
  induction l with
  | nil => simp [clampList, clampedExcess]
  | cons x xs ih =>
    simp only [clampList, clampedExcess, List.map_cons, List.sum_cons] at *
    by_cases h : cap < x <;> simp only [if_pos, if_neg, h, ite_true, ite_false] <;> omega

lemma clampedExcess_nonneg (cap : ℤ) (l : List ℤ) : 0 ≤ clampedExcess cap l := by
  induction l with
  | nil => simp [clampedExcess]
  | cons x xs ih =>
    simp only [clampedExcess, List.map_cons, List.sum_cons] at *
    by_cases h : cap < x <;> simp only [h, ite_true, ite_false] <;> omega

lemma mem_clampList_le (cap : ℤ) (l : List ℤ) : ∀ x ∈ clampList cap l, x ≤ cap := by
  intro x hx
  simp only [clampList, List.mem_map] at hx
  obtain ⟨u, _, rfl⟩ := hx
  by_cases h : cap < u <;> simp only [h, ite_true, ite_false] <;> omega

lemma mem_lowIndices (l : List ℤ) : ∀ i ∈ lowIndices l, i < l.length := by
  intro i hi
  have : i ∈ List.range l.length := List.mem_mergeSort.1 hi
  exact List.mem_range.1 this

lemma sum_set_getD (l : List ℤ) :
    ∀ i : ℕ, i < l.length → ∀ a : ℤ, (l.set i (l.getD i 0 + a)).sum = l.sum + a := by
  induction l with
  | nil => intro i h; simp at h
  | cons x xs ih =>
    intro i h a
    cases i with
    | zero => simp [List.getD_cons_zero]; ring
    | succ n =>
      have h' : n < xs.length := by simpa using h
      simp only [List.getD_cons_succ, List.set, List.sum_cons]
      rw [ih n h' a]
      ring

lemma spread_sum (cap : ℤ) (idxs : List ℕ) :
    ∀ (l : List ℤ) (e : ℤ), (∀ i ∈ idxs, i < l.length) →
      (spread cap idxs (l, e)).1.sum + (spread cap idxs (l, e)).2 = l.sum + e := by
  induction idxs with
  | nil => intro l e _; simp [spread]
  | cons i rest ih =>
    intro l e hv
    by_cases he : e ≤ 0
    · simp [spread, he]
    · have hi : i < l.length := hv i (by simp)
      rw [spread, if_neg he]
      have hlen : ∀ j ∈ rest, j < (l.set i (l.getD i 0 + min e (cap - l.getD i 0))).length := by
        intro j hj
        rw [List.length_set]
        exact hv j (List.mem_cons_of_mem _ hj)
      rw [ih _ _ hlen, sum_set_getD l i hi]
      ring

lemma spread_nonneg (cap : ℤ) (idxs : List ℕ) :
    ∀ (l : List ℤ) (e : ℤ), 0 ≤ e → 0 ≤ (spread cap idxs (l, e)).2 := by
  induction idxs with
  | nil => intro l e he; simpa [spread] using he
  | cons i rest ih =>
    intro l e he
    by_cases h : e ≤ 0
    · simpa [spread, h] using he
    · rw [spread, if_neg h]
      exact ih _ _ (by simp only [sub_nonneg]; exact min_le_left _ _)

lemma spread_le (cap : ℤ) (idxs : List ℕ) :
    ∀ (l : List ℤ) (e : ℤ), (∀ x ∈ l, x ≤ cap) →
      ∀ x ∈ (spread cap idxs (l, e)).1, x ≤ cap := by
  induction idxs with
  | nil => intro l e hl; simpa [spread] using hl
  | cons i rest ih =>
    intro l e hl
    by_cases h : e ≤ 0
    · simpa [spread, h] using hl
    · rw [spread, if_neg h]
      refine ih _ _ ?_
      intro x hx
      rcases List.mem_or_eq_of_mem_set hx with hmem | rfl
      · exact hl x hmem
      · have : min e (cap - l.getD i 0) ≤ cap - l.getD i 0 := min_le_right _ _
        omega

end Campus

/-- Claim C1: for every `Facility` (nonnegative capacity, per the data-model
invariant) and every nonnegative cap fraction (the generator uses 0.70 and
0.60), `_redistribute_usage` never increases the facility's total
person-hours — the returned sum is at most the input sum, with equality
exactly when the undistributed leftover excess is zero — and no returned slot
exceeds `cap_fraction × max_capacity`. -/
theorem campus_redistribute_usage_spec (f : Campus.Facility) (pct : ℚ)
    (hpct : 0 ≤ pct) (hcap : 0 ≤ f.max_capacity) :
    (Campus.redistribute_usage f pct).sum ≤ f.hourly_usage.sum ∧
    ((Campus.redistribute_usage f pct).sum = f.hourly_usage.sum ↔
      (Campus.redistributePair f pct).2 = 0) ∧
    ∀ x ∈ Campus.redistribute_usage f pct, (x : ℚ) ≤ pct * (f.max_capacity : ℚ) := by
  have hq : (0 : ℚ) ≤ (f.max_capacity : ℚ) * pct :=
    mul_nonneg (by exact_mod_cast hcap) hpct
  have hpair : Campus.redistributePair f pct =
      Campus.spread (pyInt ((f.max_capacity : ℚ) * pct))
        (Campus.lowIndices
          (Campus.clampList (pyInt ((f.max_capacity : ℚ) * pct)) f.hourly_usage))
        (Campus.clampList (pyInt ((f.max_capacity : ℚ) * pct)) f.hourly_usage,
          Campus.clampedExcess (pyInt ((f.max_capacity : ℚ) * pct)) f.hourly_usage) := rfl
  set cap : ℤ := pyInt ((f.max_capacity : ℚ) * pct) with hcapdef
  set clamped : List ℤ := Campus.clampList cap f.hourly_usage with hcl
  have hvalid : ∀ i ∈ Campus.lowIndices clamped, i < clamped.length :=
    Campus.mem_lowIndices clamped
  have hsum := Campus.spread_sum cap (Campus.lowIndices clamped) clamped
    (Campus.clampedExcess cap f.hourly_usage) hvalid
  have hclamp : clamped.sum = f.hourly_usage.sum - Campus.clampedExcess cap f.hourly_usage :=
    Campus.sum_clampList cap f.hourly_usage
  have hE0 : 0 ≤ Campus.clampedExcess cap f.hourly_usage :=
    Campus.clampedExcess_nonneg cap f.hourly_usage
  have hleft : 0 ≤ (Campus.redistributePair f pct).2 := by
    rw [hpair]
    exact Campus.spread_nonneg cap (Campus.lowIndices clamped) clamped _ hE0
  have husage : Campus.redistribute_usage f pct = (Campus.redistributePair f pct).1 := rfl
  have hkey : (Campus.redistribute_usage f pct).sum + (Campus.redistributePair f pct).2
      = f.hourly_usage.sum := by
    rw [husage, hpair]
    omega
  refine ⟨by omega, by omega, ?_⟩
  intro x hx
  have hxcap : x ≤ cap := by
    rw [husage, hpair] at hx
    exact Campus.spread_le cap (Campus.lowIndices clamped) clamped _
      (Campus.mem_clampList_le cap f.hourly_usage) x hx
  have h1 : (x : ℚ) ≤ (cap : ℚ) := by exact_mod_cast hxcap
  have h2 : (cap : ℚ) ≤ (f.max_capacity : ℚ) * pct := by
    rw [hcapdef, pyInt, if_pos hq]
    exact Int.floor_le _
  calc (x : ℚ) ≤ (f.max_capacity : ℚ) * pct := le_trans h1 h2
    _ = pct * (f.max_capacity : ℚ) := mul_comm _ _

/-- Concrete instance of `campus_redistribute_usage_spec`: the Gymnasium
facility of `build_dataset` with the generator's 0.70 cap fraction. -/
theorem campus_redistribute_usage_spec_witness :
    (0 : ℚ) ≤ 0.70 ∧
    (0 : ℤ) ≤ (Campus.build_dataset.headD ⟨"", 0, [], 0⟩).max_capacity ∧
    ((Campus.redistribute_usage (Campus.build_dataset.headD ⟨"", 0, [], 0⟩) 0.70).sum ≤
        (Campus.build_dataset.headD ⟨"", 0, [], 0⟩).hourly_usage.sum ∧
      ((Campus.redistribute_usage (Campus.build_dataset.headD ⟨"", 0, [], 0⟩) 0.70).sum =
          (Campus.build_dataset.headD ⟨"", 0, [], 0⟩).hourly_usage.sum ↔
        (Campus.redistributePair (Campus.build_dataset.headD ⟨"", 0, [], 0⟩) 0.70).2 = 0) ∧
      ∀ x ∈ Campus.redistribute_usage (Campus.build_dataset.headD ⟨"", 0, [], 0⟩) 0.70,
        (x : ℚ) ≤ 0.70 * ((Campus.build_dataset.headD ⟨"", 0, [], 0⟩).max_capacity : ℚ)) :=
  ⟨by norm_num, by decide,
    campus_redistribute_usage_spec (Campus.build_dataset.headD ⟨"", 0, [], 0⟩) 0.70
      (by norm_num) (by decide)⟩

/-- Claim C2 as stated is false on the code: a facility with positive
capacity and a non-empty all-zero usage list has `total_person_hours = 0` but
`idle_capacity_pct = 100`, not `0` (the guard is on
`max_possible_person_hours`, not on `total_person_hours`). -/
theorem campus_idle_capacity_counterexample :
    (Campus.Facility.mk "Z" 60 [0] 0).total_person_hours = 0 ∧
    0 < (Campus.Facility.mk "Z" 60 [0] 0).max_capacity ∧
    (Campus.Facility.mk "Z" 60 [0] 0).hourly_usage ≠ [] ∧
    (Campus.Facility.mk "Z" 60 [0] 0).cost_per_person_hour = 0 ∧
    (Campus.Facility.mk "Z" 60 [0] 0).idle_capacity_pct = 100 := by
  refine ⟨rfl, by decide, by decide, rfl, ?_⟩
  norm_num [Campus.Facility.idle_capacity_pct, Campus.Facility.max_possible_person_hours,
    Campus.Facility.total_person_hours, Campus.Facility.total_operating_hours]

/-- Claim C2, amended: for a `Facility` with `total_person_hours = 0`,
`cost_per_person_hour` is `0`; `idle_capacity_pct` is `0` exactly when
`max_possible_person_hours = 0`, and is `100` otherwise. -/
theorem campus_zero_usage_metrics (f : Campus.Facility)
    (h : f.total_person_hours = 0) :
    f.cost_per_person_hour = 0 ∧
    (f.max_possible_person_hours = 0 → f.idle_capacity_pct = 0) ∧
    (f.max_possible_person_hours ≠ 0 → f.idle_capacity_pct = 100) := by
  refine ⟨?_, ?_, ?_⟩
  · simp [Campus.Facility.cost_per_person_hour, h]
  · intro hm
    simp [Campus.Facility.idle_capacity_pct, hm]
  · intro hm
    have hm' : (f.max_possible_person_hours : ℚ) ≠ 0 := Int.cast_ne_zero.2 hm
    rw [Campus.Facility.idle_capacity_pct, if_pos hm, h]
    field_simp

/-- Concrete instance of `campus_zero_usage_metrics` at a non-degenerate
facility with all-zero usage. -/
theorem campus_zero_usage_metrics_witness :
    (Campus.Facility.mk "Z" 60 [0] 0).total_person_hours = 0 ∧
    ((Campus.Facility.mk "Z" 60 [0] 0).cost_per_person_hour = 0 ∧
      ((Campus.Facility.mk "Z" 60 [0] 0).max_possible_person_hours = 0 →
        (Campus.Facility.mk "Z" 60 [0] 0).idle_capacity_pct = 0) ∧
      ((Campus.Facility.mk "Z" 60 [0] 0).max_possible_person_hours ≠ 0 →
        (Campus.Facility.mk "Z" 60 [0] 0).idle_capacity_pct = 100)) :=
  ⟨rfl, campus_zero_usage_metrics (Campus.Facility.mk "Z" 60 [0] 0) rfl⟩

/-- Claim C3: in both generators the scenario at index 0 is exactly the
derived-metrics snapshot of the unmodified base input: the `_snap` of the
base `MessAssumptions` for the mess generator, and the aggregate snapshot of
the unmodified facility collection for the facility generator. -/
theorem scenario_zero_is_base (base : Mess.MessAssumptions) (fs : List Campus.Facility) :
    (Mess.run_optimizations base).head? = some (Mess.messSnap "Base Case (Current)" base) ∧
    (Campus.run_optimizations fs).head? = some (Campus.aggSnap "Base Case (Current)" fs) :=
  ⟨rfl, rfl⟩

/-- Claim C4: `profit_margin` equals `profit / total_revenue * 100` whenever
revenue is nonzero and equals `0` exactly when revenue is zero; the
embedding is a total function, so no division-by-zero failure is reachable. -/
theorem mess_profit_margin_spec (a : Mess.MessAssumptions) :
    (a.total_revenue = 0 → a.profit_margin = 0) ∧
    (a.total_revenue ≠ 0 → a.profit_margin = a.profit / a.total_revenue * 100) := by
  constructor
  · intro h
    simp [Mess.MessAssumptions.profit_margin, h]
  · intro h
    rw [Mess.MessAssumptions.profit_margin, if_pos h]

/-- Concrete instances of `mess_profit_margin_spec`: the default assumptions
(nonzero revenue) and a zero-student variant (zero revenue). -/
theorem mess_profit_margin_spec_witness :
    (Mess.messDefault.total_revenue ≠ 0 ∧
      Mess.messDefault.profit_margin =
        Mess.messDefault.profit / Mess.messDefault.total_revenue * 100) ∧
    (({ Mess.messDefault with total_students := 0 } : Mess.MessAssumptions).total_revenue = 0 ∧
      ({ Mess.messDefault with total_students := 0 } : Mess.MessAssumptions).profit_margin = 0) :=
  ⟨⟨by norm_num [Mess.MessAssumptions.total_revenue, Mess.messDefault],
    (mess_profit_margin_spec Mess.messDefault).2
      (by norm_num [Mess.MessAssumptions.total_revenue, Mess.messDefault])⟩,
    ⟨by norm_num [Mess.MessAssumptions.total_revenue],
      (mess_profit_margin_spec { Mess.messDefault with total_students := 0 }).1
        (by norm_num [Mess.MessAssumptions.total_revenue])⟩⟩

namespace Campus

lemma countP_add_countP_le_length (l : List ℤ) (p q : ℤ → Bool)
    (h : ∀ x ∈ l, ¬(p x = true ∧ q x = true)) :
    l.countP p + l.countP q ≤ l.length := by
  induction l with
  | nil => simp
  | cons x xs ih =>
    have hx := h x (by simp)
    have hxs : ∀ y ∈ xs, ¬(p y = true ∧ q y = true) := fun y hy =>
      h y (List.mem_cons_of_mem _ hy)
    have := ih hxs
    rw [List.countP_cons, List.countP_cons, List.length_cons]
    by_cases hp : p x = true <;> by_cases hq : q x = true <;>
      simp [hp, hq] at hx ⊢ <;> omega

end Campus

/-- Claim C5: for every `Facility` (nonnegative capacity, per the data-model
invariant), `idle_hours + overcrowded_hours` never exceeds the number of
usage slots: the 20% and 85% thresholds are disjoint, so no slot is counted
twice. -/
theorem campus_idle_overcrowded_le_length (f : Campus.Facility)
    (hcap : 0 ≤ f.max_capacity) :
    f.idle_hours + f.overcrowded_hours ≤ f.hourly_usage.length := by
  rw [Campus.Facility.idle_hours, Campus.Facility.overcrowded_hours]
  refine Campus.countP_add_countP_le_length _ _ _ ?_
  intro x _ hx
  rcases hx with ⟨h1, h2⟩
  rw [decide_eq_true_iff] at h1 h2
  have hc : (0 : ℚ) ≤ (f.max_capacity : ℚ) := by exact_mod_cast hcap
  have : (f.max_capacity : ℚ) * 0.20 ≤ (f.max_capacity : ℚ) * 0.85 :=
    mul_le_mul_of_nonneg_left (by norm_num) hc
  linarith

/-- Concrete instance of `campus_idle_overcrowded_le_length` at the Gymnasium
facility of `build_dataset`. -/
theorem campus_idle_overcrowded_le_length_witness :
    (0 : ℤ) ≤ (Campus.build_dataset.headD ⟨"", 0, [], 0⟩).max_capacity ∧
    (Campus.build_dataset.headD ⟨"", 0, [], 0⟩).idle_hours +
        (Campus.build_dataset.headD ⟨"", 0, [], 0⟩).overcrowded_hours ≤
      (Campus.build_dataset.headD ⟨"", 0, [], 0⟩).hourly_usage.length :=
  ⟨by decide, campus_idle_overcrowded_le_length (Campus.build_dataset.headD ⟨"", 0, [], 0⟩)
    (by decide)⟩

/-- Claim C6 as stated is false on the code: the variant constructor calls
pass every field of the base except `days_in_month`, which silently resets to
the dataclass default 30.  With a base whose `days_in_month` is 31, the first
wastage variant does not keep the base's value. -/
theorem mess_variant_days_counterexample :
    ((Mess.messVariants { Mess.messDefault with days_in_month := 31 }).getD 0
        Mess.messDefault).days_in_month ≠
      ({ Mess.messDefault with days_in_month := 31 } : Mess.MessAssumptions).days_in_month := by
  decide

/-- Claim C6, amended: the mess scenario generator's variant list consists of
the four constructor shapes below, and each variant agrees with the base on
every field its construction site does not explicitly override — except
`days_in_month`, which no construction site passes: it is always the
dataclass default 30, not the base's value.  The wastage variants override
only `food_wastage_pct`; the efficiency variants only lpg, water,
electricity and maintenance; the fee variants only
`monthly_fee_per_student`; the combined variant only the fee, wastage, lpg,
water, electricity and maintenance fields. -/
theorem mess_variant_frame (base : Mess.MessAssumptions) :
    Mess.messVariants base =
      [Mess.wastageVariant base 5, Mess.wastageVariant base 10, Mess.wastageVariant base 15,
       Mess.efficiencyVariant base 2, Mess.efficiencyVariant base 5, Mess.efficiencyVariant base 8,
       Mess.feeVariant base 100, Mess.feeVariant base 200, Mess.feeVariant base 300,
       Mess.combinedVariant base] ∧
    (∀ r : ℚ,
      (Mess.wastageVariant base r).total_students = base.total_students ∧
      (Mess.wastageVariant base r).monthly_fee_per_student = base.monthly_fee_per_student ∧
      (Mess.wastageVariant base r).daily_food_cost_per_student =
        base.daily_food_cost_per_student ∧
      (Mess.wastageVariant base r).lpg_fuel_monthly = base.lpg_fuel_monthly ∧
      (Mess.wastageVariant base r).water_monthly = base.water_monthly ∧
      (Mess.wastageVariant base r).packaging_disposables_monthly =
        base.packaging_disposables_monthly ∧
      (Mess.wastageVariant base r).staff_salaries = base.staff_salaries ∧
      (Mess.wastageVariant base r).electricity = base.electricity ∧
      (Mess.wastageVariant base r).maintenance = base.maintenance ∧
      (Mess.wastageVariant base r).rent = base.rent ∧
      (Mess.wastageVariant base r).insurance_misc = base.insurance_misc ∧
      (Mess.wastageVariant base r).days_in_month = 30) ∧
    (∀ e : ℚ,
      (Mess.efficiencyVariant base e).total_students = base.total_students ∧
      (Mess.efficiencyVariant base e).monthly_fee_per_student = base.monthly_fee_per_student ∧
      (Mess.efficiencyVariant base e).daily_food_cost_per_student =
        base.daily_food_cost_per_student ∧
      (Mess.efficiencyVariant base e).food_wastage_pct = base.food_wastage_pct ∧
      (Mess.efficiencyVariant base e).packaging_disposables_monthly =
        base.packaging_disposables_monthly ∧
      (Mess.efficiencyVariant base e).staff_salaries = base.staff_salaries ∧
      (Mess.efficiencyVariant base e).rent = base.rent ∧
      (Mess.efficiencyVariant base e).insurance_misc = base.insurance_misc ∧
      (Mess.efficiencyVariant base e).days_in_month = 30) ∧
    (∀ b : ℚ,
      (Mess.feeVariant base b).total_students = base.total_students ∧
      (Mess.feeVariant base b).daily_food_cost_per_student =
        base.daily_food_cost_per_student ∧
      (Mess.feeVariant base b).food_wastage_pct = base.food_wastage_pct ∧
      (Mess.feeVariant base b).lpg_fuel_monthly = base.lpg_fuel_monthly ∧
      (Mess.feeVariant base b).water_monthly = base.water_monthly ∧
      (Mess.feeVariant base b).packaging_disposables_monthly =
        base.packaging_disposables_monthly ∧
      (Mess.feeVariant base b).staff_salaries = base.staff_salaries ∧
      (Mess.feeVariant base b).electricity = base.electricity ∧
      (Mess.feeVariant base b).maintenance = base.maintenance ∧
      (Mess.feeVariant base b).rent = base.rent ∧
      (Mess.feeVariant base b).insurance_misc = base.insurance_misc ∧
      (Mess.feeVariant base b).days_in_month = 30) ∧
    ((Mess.combinedVariant base).total_students = base.total_students ∧
      (Mess.combinedVariant base).daily_food_cost_per_student =
        base.daily_food_cost_per_student ∧
      (Mess.combinedVariant base).packaging_disposables_monthly =
        base.packaging_disposables_monthly ∧
      (Mess.combinedVariant base).staff_salaries = base.staff_salaries ∧
      (Mess.combinedVariant base).rent = base.rent ∧
      (Mess.combinedVariant base).insurance_misc = base.insurance_misc ∧
      (Mess.combinedVariant base).days_in_month = 30) :=
  ⟨rfl,
    fun r => ⟨rfl, rfl, rfl, rfl, rfl, rfl, rfl, rfl, rfl, rfl, rfl, rfl⟩,
    fun e => ⟨rfl, rfl, rfl, rfl, rfl, rfl, rfl, rfl, rfl⟩,
    fun b => ⟨rfl, rfl, rfl, rfl, rfl, rfl, rfl, rfl, rfl, rfl, rfl, rfl⟩,
    ⟨rfl, rfl, rfl, rfl, rfl, rfl, rfl⟩⟩

/-- Claim C7 as stated is false on the code at a base admitted by the data
model (all fields nonnegative) with zero students: the wastage variant's
percentage is negative as claimed, but its `monthly_wastage_cost` is `0`,
not negative, because the raw food cost is `0`. -/
theorem mess_wastage_negative_cost_counterexample :
    (Mess.messVariants
        { Mess.messDefault with total_students := 0, food_wastage_pct := 3 }).getD 0
        Mess.messDefault =
      Mess.wastageVariant
        { Mess.messDefault with total_students := 0, food_wastage_pct := 3 } 5 ∧
    (Mess.wastageVariant
        { Mess.messDefault with total_students := 0, food_wastage_pct := 3 } 5).food_wastage_pct
      < 0 ∧
    ¬ (Mess.wastageVariant
        { Mess.messDefault with total_students := 0, food_wastage_pct := 3 } 5).monthly_wastage_cost
      < 0 := by
  refine ⟨rfl, ?_, ?_⟩
  · norm_num [Mess.wastageVariant, Mess.messDefault]
  · norm_num [Mess.wastageVariant, Mess.messDefault,
      Mess.MessAssumptions.monthly_wastage_cost, Mess.MessAssumptions.monthly_raw_food_cost]

/-- Claim C7, amended: the three wastage-reduction variants set
`food_wastage_pct` to exactly the base value minus the reduction, with no
lower clamp, so the percentage goes negative whenever the base is below the
subtracted amount; the variant's `monthly_wastage_cost` is then negative
provided the base's `students × daily food cost` is positive. -/
theorem mess_wastage_variants_unclamped (base : Mess.MessAssumptions) :
    (Mess.messVariants base).take 3 =
      [Mess.wastageVariant base 5, Mess.wastageVariant base 10, Mess.wastageVariant base 15] ∧
    (∀ r : ℚ, (Mess.wastageVariant base r).food_wastage_pct = base.food_wastage_pct - r) ∧
    (∀ r : ℚ, base.food_wastage_pct < r →
      (Mess.wastageVariant base r).food_wastage_pct < 0 ∧
      (0 < (base.total_students : ℚ) * base.daily_food_cost_per_student →
        (Mess.wastageVariant base r).monthly_wastage_cost < 0)) := by
  refine ⟨rfl, fun r => rfl, fun r hr => ⟨?_, fun hpos => ?_⟩⟩
  · show base.food_wastage_pct - r < 0
    linarith
  · have hraw : (Mess.wastageVariant base r).monthly_raw_food_cost =
        (base.total_students : ℚ) * base.daily_food_cost_per_student * ((30 : ℤ) : ℚ) := rfl
    have hrawpos : 0 < (Mess.wastageVariant base r).monthly_raw_food_cost := by
      rw [hraw]
      push_cast
      positivity
    have hw : (Mess.wastageVariant base r).food_wastage_pct = base.food_wastage_pct - r := rfl
    rw [Mess.MessAssumptions.monthly_wastage_cost, hw]
    exact mul_neg_of_pos_of_neg hrawpos
      (div_neg_of_neg_of_pos (by linarith) (by norm_num))

/-- Concrete instance of `mess_wastage_variants_unclamped`: a base with 3%
wastage and the default (positive) student count and food cost; the 5pp
variant has wastage −2% and a negative wastage cost. -/
theorem mess_wastage_variants_unclamped_witness :
    (({ Mess.messDefault with food_wastage_pct := 3 } : Mess.MessAssumptions).food_wastage_pct
        < 5 ∧
      0 < (({ Mess.messDefault with food_wastage_pct := 3 } :
        Mess.MessAssumptions).total_students : ℚ) *
        ({ Mess.messDefault with food_wastage_pct := 3 } :
          Mess.MessAssumptions).daily_food_cost_per_student) ∧
    (Mess.wastageVariant { Mess.messDefault with food_wastage_pct := 3 } 5).food_wastage_pct
        < 0 ∧
    (Mess.wastageVariant { Mess.messDefault with food_wastage_pct := 3 } 5).monthly_wastage_cost
        < 0 := by
  have h1 : ({ Mess.messDefault with food_wastage_pct := 3 } :
      Mess.MessAssumptions).food_wastage_pct < 5 := by
    norm_num [Mess.messDefault]
  have h2 : 0 < (({ Mess.messDefault with food_wastage_pct := 3 } :
      Mess.MessAssumptions).total_students : ℚ) *
      ({ Mess.messDefault with food_wastage_pct := 3 } :
        Mess.MessAssumptions).daily_food_cost_per_student := by
    norm_num [Mess.messDefault]
  have h := (mess_wastage_variants_unclamped
    { Mess.messDefault with food_wastage_pct := 3 }).2.2 5 h1
  exact ⟨⟨h1, h2⟩, h.1, h.2 h2⟩

/-- Claim C8 as stated is false on the code: the appended slots are
`int(peak_usage * 0.3)` — truncated — not exactly 30% of peak.  For a
facility at 75% utilization with peak 45, the appended slots are 13, while
30% of the peak is 13.5. -/
theorem campus_extend_counterexample :
    (Campus.Facility.mk "CE" 60 [45, 45] 0).avg_utilization_pct > 50 ∧
    (Campus.extendFacility (Campus.Facility.mk "CE" 60 [45, 45] 0)).hourly_usage =
      [45, 45, 13, 13] ∧
    (((Campus.extendFacility (Campus.Facility.mk "CE" 60 [45, 45] 0)).hourly_usage.getD 2 0 : ℚ)
      ≠ 0.3 * ((Campus.Facility.mk "CE" 60 [45, 45] 0).peak_usage : ℚ)) := by
  have havg : (Campus.Facility.mk "CE" 60 [45, 45] 0).avg_utilization_pct > 50 := by
    norm_num [Campus.Facility.avg_utilization_pct, Campus.Facility.max_possible_person_hours,
      Campus.Facility.total_person_hours, Campus.Facility.total_operating_hours]
  have hpeak : (Campus.Facility.mk "CE" 60 [45, 45] 0).peak_usage = 45 := rfl
  have hfloor : pyInt (((Campus.Facility.mk "CE" 60 [45, 45] 0).peak_usage : ℚ) * 0.3) = 13 := by
    rw [hpeak, pyInt, if_pos (by norm_num)]
    norm_num
  have husage : (Campus.extendFacility (Campus.Facility.mk "CE" 60 [45, 45] 0)).hourly_usage =
      [45, 45, 13, 13] := by
    rw [Campus.extendFacility, if_pos havg]
    simp [hfloor]
  refine ⟨havg, husage, ?_⟩
  rw [husage, hpeak]
  norm_num

/-- Claim C8, amended: in the extended-hours scenario every facility above
50% average utilization gets exactly two slots appended, each valued at the
integer truncation of `0.3 × peak_usage`, with capacity, cost and name
unchanged; every facility at or below 50% is passed through unchanged. -/
theorem campus_extend_facility_spec (f : Campus.Facility) :
    (f.avg_utilization_pct > 50 →
      (Campus.extendFacility f).hourly_usage =
        f.hourly_usage ++ List.replicate 2 (pyInt ((f.peak_usage : ℚ) * 0.3)) ∧
      (Campus.extendFacility f).max_capacity = f.max_capacity ∧
      (Campus.extendFacility f).operating_cost_per_hour = f.operating_cost_per_hour ∧
      (Campus.extendFacility f).name = f.name) ∧
    (¬ f.avg_utilization_pct > 50 → Campus.extendFacility f = f) := by
  constructor
  · intro h
    rw [Campus.extendFacility, if_pos h]
    exact ⟨rfl, rfl, rfl, rfl⟩
  · intro h
    rw [Campus.extendFacility, if_neg h]

/-- Concrete instances of `campus_extend_facility_spec`: the 75%-utilized
counterexample facility (extended) and the Gymnasium of `build_dataset`
(39.26% utilized, passed through unchanged). -/
theorem campus_extend_facility_spec_witness :
    ((Campus.Facility.mk "CE" 60 [45, 45] 0).avg_utilization_pct > 50 ∧
      (Campus.extendFacility (Campus.Facility.mk "CE" 60 [45, 45] 0)).hourly_usage =
        (Campus.Facility.mk "CE" 60 [45, 45] 0).hourly_usage ++
          List.replicate 2
            (pyInt (((Campus.Facility.mk "CE" 60 [45, 45] 0).peak_usage : ℚ) * 0.3))) ∧
    (¬ (Campus.build_dataset.headD ⟨"", 0, [], 0⟩).avg_utilization_pct > 50 ∧
      Campus.extendFacility (Campus.build_dataset.headD ⟨"", 0, [], 0⟩) =
        Campus.build_dataset.headD ⟨"", 0, [], 0⟩) := by
  have h1 : (Campus.Facility.mk "CE" 60 [45, 45] 0).avg_utilization_pct > 50 := by
    norm_num [Campus.Facility.avg_utilization_pct, Campus.Facility.max_possible_person_hours,
      Campus.Facility.total_person_hours, Campus.Facility.total_operating_hours]
  have h2 : ¬ (Campus.build_dataset.headD ⟨"", 0, [], 0⟩).avg_utilization_pct > 50 := by
    norm_num [Campus.Facility.avg_utilization_pct, Campus.Facility.max_possible_person_hours,
      Campus.Facility.total_person_hours, Campus.Facility.total_operating_hours,
      Campus.build_dataset]
  exact ⟨⟨h1, ((campus_extend_facility_spec _).1 h1).1⟩,
    ⟨h2, (campus_extend_facility_spec _).2 h2⟩⟩

/-- Claim C9: the metrics derived from the default assumption set (students
650, fee 4500, daily food cost 90, days 30, wastage 12%, lpg 55000, water
18000, packaging 12000, salaries 220000, electricity 45000, maintenance
20000, rent 60000, insurance 15000) are exactly the documented values, and
the profit margin rounds to 17.59%. -/
theorem mess_default_metrics :
    Mess.messDefault.monthly_raw_food_cost = 1755000 ∧
    Mess.messDefault.monthly_wastage_cost = 210600 ∧
    Mess.messDefault.total_revenue = 2925000 ∧
    Mess.messDefault.total_variable_costs = 2050600 ∧
    Mess.messDefault.total_fixed_costs = 360000 ∧
    Mess.messDefault.total_cost = 2410600 ∧
    Mess.messDefault.profit = 514400 ∧
    round (Mess.messDefault.profit_margin * 100) = 1759 := by
  have h1 : Mess.messDefault.monthly_raw_food_cost = 1755000 := by
    norm_num [Mess.MessAssumptions.monthly_raw_food_cost, Mess.messDefault]
  have h2 : Mess.messDefault.monthly_wastage_cost = 210600 := by
    norm_num [Mess.MessAssumptions.monthly_wastage_cost, h1]
    norm_num [Mess.messDefault]
  have h3 : Mess.messDefault.total_revenue = 2925000 := by
    norm_num [Mess.MessAssumptions.total_revenue, Mess.messDefault]
  have h4 : Mess.messDefault.total_variable_costs = 2050600 := by
    norm_num [Mess.MessAssumptions.total_variable_costs, h1, h2]
    norm_num [Mess.messDefault]
  have h5 : Mess.messDefault.total_fixed_costs = 360000 := by
    norm_num [Mess.MessAssumptions.total_fixed_costs, Mess.messDefault]
  have h6 : Mess.messDefault.total_cost = 2410600 := by
    norm_num [Mess.MessAssumptions.total_cost, h4, h5]
  have h7 : Mess.messDefault.profit = 514400 := by
    norm_num [Mess.MessAssumptions.profit, h3, h6]
  have h8 : Mess.messDefault.profit_margin = 514400 / 2925000 * 100 := by
    rw [Mess.MessAssumptions.profit_margin, if_pos (by rw [h3]; norm_num), h7, h3]
  refine ⟨h1, h2, h3, h4, h5, h6, h7, ?_⟩
  rw [h8, round_eq]
  norm_num

/-- Claim C10: `peak_hour` returns the sentinel for empty usage, returns the
hour label at the first index of the maximum when that index is within the
18-entry `HOURS` table, and fails (out-of-bounds lookup, modelled as `none`)
on a concrete facility whose 19-slot usage list has its first maximum at
index 18. -/
theorem campus_peak_hour_spec :
    Campus.HOURS.length = 18 ∧
    (∀ f : Campus.Facility, f.hourly_usage = [] → f.peak_hour = some "N/A") ∧
    (∀ f : Campus.Facility, f.hourly_usage ≠ [] →
      f.hourly_usage.indexOf (Campus.listMax f.hourly_usage) < 18 →
      f.peak_hour =
        some (Campus.HOURS.getD
          (f.hourly_usage.indexOf (Campus.listMax f.hourly_usage)) "")) ∧
    (18 < (Campus.Facility.mk "B" 10 (List.replicate 18 (0 : ℤ) ++ [5]) 0).hourly_usage.length ∧
      (Campus.Facility.mk "B" 10 (List.replicate 18 (0 : ℤ) ++ [5]) 0).hourly_usage.indexOf
        (Campus.listMax
          (Campus.Facility.mk "B" 10 (List.replicate 18 (0 : ℤ) ++ [5]) 0).hourly_usage) = 18 ∧
      (Campus.Facility.mk "B" 10 (List.replicate 18 (0 : ℤ) ++ [5]) 0).peak_hour = none) := by
  have hlen : Campus.HOURS.length = 18 := rfl
  refine ⟨hlen, ?_, ?_, by decide, by decide, by decide⟩
  · intro f h
    rw [Campus.Facility.peak_hour, if_pos h]
  · intro f h hidx
    rw [Campus.Facility.peak_hour, if_neg h]
    have hidx' : f.hourly_usage.indexOf (Campus.listMax f.hourly_usage) <
        Campus.HOURS.length := by rw [hlen]; exact hidx
    rw [List.get?_eq_get hidx', List.getD_eq_get?, List.get?_eq_get hidx']
    rfl

/-- Concrete instances of `campus_peak_hour_spec`: an empty-usage facility
(sentinel) and the Gymnasium of `build_dataset`, whose first maximum is at
index 10, mapping to the label "16:00". -/
theorem campus_peak_hour_spec_witness :
    ((Campus.Facility.mk "E" 0 [] 0).hourly_usage = [] ∧
      (Campus.Facility.mk "E" 0 [] 0).peak_hour = some "N/A") ∧
    ((Campus.build_dataset.headD ⟨"", 0, [], 0⟩).hourly_usage ≠ [] ∧
      (Campus.build_dataset.headD ⟨"", 0, [], 0⟩).hourly_usage.indexOf
        (Campus.listMax (Campus.build_dataset.headD ⟨"", 0, [], 0⟩).hourly_usage) < 18 ∧
      (Campus.build_dataset.headD ⟨"", 0, [], 0⟩).peak_hour =
        some (Campus.HOURS.getD
          ((Campus.build_dataset.headD ⟨"", 0, [], 0⟩).hourly_usage.indexOf
            (Campus.listMax (Campus.build_dataset.headD ⟨"", 0, [], 0⟩).hourly_usage)) "")) :=
  ⟨⟨rfl, campus_peak_hour_spec.2.1 _ rfl⟩,
    ⟨by decide, by decide,
      campus_peak_hour_spec.2.2.1 _ (by decide) (by decide)⟩⟩
